import Mathlib

/-!
Verification development for the multi-tenant storefront renderer.

The definitions below are shallow embeddings of the TypeScript/JavaScript
source of the repository: pure string manipulation is translated to Lean
functions on `String`/`List Char`, the Redis distributed cache is an
association list from full key strings to stored JSON strings, the
process-local cache and blob storage are explicit parameters, and fallible
operations return `Except`/`Option`.  Each definition names the source
function it embeds.
-/

namespace Storefront

/-- A string `t` occurs as a contiguous substring of `s`. -/
def strContains (s t : String) : Prop := t.data <:+: s.data

instance (s t : String) : Decidable (strContains s t) :=
  inferInstanceAs (Decidable (t.data <:+: s.data))

/-! ## Renderer service: the `handleize` Liquid filter
(`src/services/renderer-service.ts`, `registerCustomFilters`)

JavaScript source:
`str.toLowerCase().replace(/[^a-z0-9]+/g, '-').replace(/^-|-$/g, '')`
-/

/-- Character class `[a-z0-9]` of the handleize regex. -/
def isHandleAlnum (c : Char) : Bool :=
  ('a' ≤ c && c ≤ 'z') || ('0' ≤ c && c ≤ '9')

/-- Embeds `replace(/[^a-z0-9]+/g, '-')`: every maximal run of characters
outside `[a-z0-9]` is replaced by a single hyphen. -/
def collapseNonAlnum : List Char → List Char
  | [] => []
  | [c] => if isHandleAlnum c then [c] else ['-']
  | c :: d :: rest =>
    if isHandleAlnum c then c :: collapseNonAlnum (d :: rest)
    else if isHandleAlnum d then '-' :: collapseNonAlnum (d :: rest)
    else collapseNonAlnum (d :: rest)

/-- Removes one leading hyphen, if present. -/
def dropEdgeHyphen (l : List Char) : List Char :=
  match l with
  | [] => []
  | c :: t => if c = '-' then t else c :: t

/-- Embeds `replace(/^-|-$/g, '')`: removes one leading and one trailing
hyphen (after the collapse step at most one of each can exist). -/
def stripEdgeHyphens (l : List Char) : List Char :=
  (dropEdgeHyphen ((dropEdgeHyphen l).reverse)).reverse

/-- The `handleize` Liquid filter of `renderer-service.ts`.
`String.prototype.toLowerCase` is embedded as the ASCII `Char.toLower`;
for non-ASCII letters both the JS lowercase image and the unchanged
character fall outside `[a-z0-9]`, so the collapse step treats them
identically. -/
def handleize (s : String) : String :=
  ⟨stripEdgeHyphens (collapseNonAlnum (s.data.map Char.toLower))⟩

/-- Adjacent-pair relation: not both characters are hyphens. -/
def noHH (a b : Char) : Prop := ¬(a = '-' ∧ b = '-')

theorem collapseNonAlnum_mem :
    ∀ l : List Char, ∀ c ∈ collapseNonAlnum l, isHandleAlnum c = true ∨ c = '-' := by
  intro l
  induction l using collapseNonAlnum.induct with
  | case1 => intro c hc; simp [collapseNonAlnum] at hc
  | case2 c h =>
    intro e he
    simp [collapseNonAlnum, h] at he; subst he; exact Or.inl h
  | case3 c h =>
    intro e he
    simp [collapseNonAlnum, h] at he; subst he; exact Or.inr rfl
  | case4 c d rest h ih =>
    intro e he
    simp only [collapseNonAlnum, if_pos h, List.mem_cons] at he
    rcases he with he | he
    · subst he; exact Or.inl h
    · exact ih e he
  | case5 c d rest h hd ih =>
    intro e he
    simp only [collapseNonAlnum, if_neg h, if_pos hd, List.mem_cons] at he
    rcases he with he | he
    · exact Or.inr he
    · exact ih e he
  | case6 c d rest h hd ih =>
    intro e he
    simp only [collapseNonAlnum, if_neg h, if_neg hd] at he
    exact ih e he

theorem collapseNonAlnum_head_alnum (d : Char) (rest : List Char)
    (hd : isHandleAlnum d = true) :
    ∃ t, collapseNonAlnum (d :: rest) = d :: t := by
  cases rest with
  | nil => exact ⟨[], by simp [collapseNonAlnum, hd]⟩
  | cons e t => exact ⟨collapseNonAlnum (e :: t), by simp [collapseNonAlnum, hd]⟩

theorem collapseNonAlnum_chain :
    ∀ l : List Char, List.Chain' noHH (collapseNonAlnum l) := by
  intro l
  induction l using collapseNonAlnum.induct with
  | case1 => simp [collapseNonAlnum]
  | case2 c h => simp [collapseNonAlnum, h]
  | case3 c h => simp [collapseNonAlnum, h]
  | case4 c d rest h ih =>
    simp only [collapseNonAlnum, if_pos h]
    cases hrec : collapseNonAlnum (d :: rest) with
    | nil => simp
    | cons x t =>
      rw [List.chain'_cons]
      refine ⟨?_, hrec ▸ ih⟩
      intro hcontra
      rcases hcontra with ⟨hc, _⟩
      rw [hc] at h
      exact absurd h (by decide)
  | case5 c d rest h hd ih =>
    simp only [collapseNonAlnum, if_neg h, if_pos hd]
    obtain ⟨t, ht⟩ := collapseNonAlnum_head_alnum d rest hd
    rw [ht, List.chain'_cons]
    refine ⟨?_, ht ▸ ih⟩
    intro hcontra
    rcases hcontra with ⟨_, hdh⟩
    rw [hdh] at hd
    exact absurd hd (by decide)
  | case6 c d rest h hd ih =>
    simpa only [collapseNonAlnum, if_neg h, if_neg hd] using ih

theorem dropEdgeHyphen_head (l : List Char) (h : List.Chain' noHH l) :
    (dropEdgeHyphen l).head? ≠ some '-' := by
  cases l with
  | nil => decide
  | cons c t =>
    by_cases hc : c = '-'
    · subst hc
      simp only [dropEdgeHyphen, if_pos rfl]
      cases t with
      | nil => simp
      | cons d t2 =>
        have hrel : noHH '-' d := List.chain'_cons.mp h |>.1
        intro hcontra
        have hd : d = '-' := by simpa using hcontra
        exact hrel ⟨rfl, hd⟩
    · simp only [dropEdgeHyphen, if_neg hc]
      intro hcontra
      exact hc (by simpa using hcontra)

theorem dropEdgeHyphen_getLast (l : List Char) (c : Char)
    (h : (dropEdgeHyphen l).getLast? = some c) : l.getLast? = some c := by
  cases l with
  | nil => simp [dropEdgeHyphen] at h
  | cons a t =>
    by_cases ha : a = '-'
    · subst ha
      simp only [dropEdgeHyphen, if_pos rfl] at h
      cases t with
      | nil => simp at h
      | cons b t2 => rw [List.getLast?_cons_cons]; exact h
    · simpa only [dropEdgeHyphen, if_neg ha] using h

theorem dropEdgeHyphen_sublist (l : List Char) : (dropEdgeHyphen l).Sublist l := by
  cases l with
  | nil => simp [dropEdgeHyphen]
  | cons a t =>
    by_cases ha : a = '-'
    · simpa only [dropEdgeHyphen, if_pos ha] using List.sublist_cons_self a t
    · simp only [dropEdgeHyphen, if_neg ha]
      exact List.Sublist.refl _

theorem dropEdgeHyphen_chain (l : List Char) (h : List.Chain' noHH l) :
    List.Chain' noHH (dropEdgeHyphen l) := by
  cases l with
  | nil => exact h
  | cons a t =>
    by_cases ha : a = '-'
    · simpa only [dropEdgeHyphen, if_pos ha] using h.tail
    · simpa only [dropEdgeHyphen, if_neg ha] using h

theorem noHH_flip : flip noHH = noHH := by
  funext a b
  apply propext
  unfold flip noHH
  constructor
  · intro h hc; exact h ⟨hc.2, hc.1⟩
  · intro h hc; exact h ⟨hc.2, hc.1⟩

theorem stripEdgeHyphens_props (l : List Char) (h : List.Chain' noHH l) :
    (stripEdgeHyphens l).head? ≠ some '-' ∧
    (stripEdgeHyphens l).getLast? ≠ some '-' ∧
    (stripEdgeHyphens l).Sublist l ∧
    List.Chain' noHH (stripEdgeHyphens l) := by
  unfold stripEdgeHyphens
  set m := dropEdgeHyphen l with hm
  have hmchain : List.Chain' noHH m := dropEdgeHyphen_chain l h
  have hmhead : m.head? ≠ some '-' := dropEdgeHyphen_head l h
  have hrevchain : List.Chain' noHH m.reverse := by
    rw [List.chain'_reverse, noHH_flip]
    exact hmchain
  refine ⟨?_, ?_, ?_, ?_⟩
  · rw [List.head?_reverse]
    intro hcontra
    have := dropEdgeHyphen_getLast m.reverse '-' hcontra
    rw [List.getLast?_reverse] at this
    exact hmhead this
  · rw [List.getLast?_reverse]
    exact dropEdgeHyphen_head m.reverse hrevchain
  · have h1 : (dropEdgeHyphen m.reverse).reverse.Sublist m.reverse.reverse :=
      List.Sublist.reverse (dropEdgeHyphen_sublist m.reverse)
    rw [List.reverse_reverse] at h1
    exact h1.trans (dropEdgeHyphen_sublist l)
  · rw [List.chain'_reverse, noHH_flip]
    exact dropEdgeHyphen_chain m.reverse hrevchain

/-- C9: the `handleize` filter maps "My Cool Product!!" to "my-cool-product";
for every input, the output has only characters in `[a-z0-9-]`, contains no
two adjacent hyphens (runs of non-alphanumerics were collapsed into single
hyphens), and neither starts nor ends with a hyphen. -/
theorem handleize_spec :
    handleize "My Cool Product!!" = "my-cool-product" ∧
    ∀ s : String,
      (∀ c ∈ (handleize s).data, isHandleAlnum c = true ∨ c = '-') ∧
      ¬ strContains (handleize s) "--" ∧
      (handleize s).data.head? ≠ some '-' ∧
      (handleize s).data.getLast? ≠ some '-' := by
  constructor
  · decide
  · intro s
    have hchain := collapseNonAlnum_chain (s.data.map Char.toLower)
    obtain ⟨hhead, hlast, hsub, hchain2⟩ :=
      stripEdgeHyphens_props (collapseNonAlnum (s.data.map Char.toLower)) hchain
    refine ⟨?_, ?_, hhead, hlast⟩
    · intro c hc
      exact collapseNonAlnum_mem _ c (hsub.mem hc)
    · intro hinf
      have hcc : List.Chain' noHH (String.data "--") := List.Chain'.infix hchain2 hinf
      have : noHH '-' '-' := List.chain'_cons.mp hcc |>.1
      exact this ⟨rfl, rfl⟩

/-- Closed instantiation of the universally quantified part of
`handleize_spec` at a concrete input. -/
theorem handleize_spec_witness :
    (∀ c ∈ (handleize "  Héllo -- World!  ").data, isHandleAlnum c = true ∨ c = '-') ∧
    ¬ strContains (handleize "  Héllo -- World!  ") "--" ∧
    (handleize "  Héllo -- World!  ").data.head? ≠ some '-' ∧
    (handleize "  Héllo -- World!  ").data.getLast? ≠ some '-' :=
  (handleize_spec.2 "  Héllo -- World!  ")

/-! ## Data model (product-service interfaces in `src/services/product-service.ts`
and tenant-service `Tenant`) -/

/-- JavaScript `a || b` on an optional string: `undefined` and the empty
string are falsy. -/
def jsOrStr (o : Option String) (d : String) : String :=
  match o with
  | some s => if s = "" then d else s
  | none => d

/-- JavaScript truthiness of an optional string value. -/
def jsTruthyStr (o : Option String) : Bool :=
  match o with
  | some s => !(s == "")
  | none => false

structure ProductVariant where
  id : String
  product_id : String
  title : String
  sku : Option String
  price : Int
  compare_at_price : Option Int
  inventory_quantity : Int
deriving DecidableEq

structure Product where
  id : String
  title : String
  description : Option String
  handle : String
  vendor : Option String
  product_type : Option String
  status : String
  variants : List ProductVariant
  images : List String
deriving DecidableEq

structure Collection where
  id : String
  title : String
  handle : String
  description : Option String
  published : Bool
  product_count : Option Nat
deriving DecidableEq

structure ProductQueryOptions where
  handle : Option String := none
  collection_id : Option String := none
  featured : Option Bool := none
  limit : Option Nat := none
  offset : Option Nat := none
deriving DecidableEq

structure CollectionQueryOptions where
  handle : Option String := none
  limit : Option Nat := none
  offset : Option Nat := none
deriving DecidableEq

structure Tenant where
  id : String
  tenant_id : String
  name : String
  custom_domain : Option String
  status : String
deriving DecidableEq

/-! ## Route resolver (`resolveRoute` in the storefront router,
src/unnamed/part_000 lines 79-158)

The catalog lookups `getProducts`/`getCollections` are passed in as
functions (they are the product-service calls); the dispatch itself is pure
string matching on the path. -/

/-- Payload of a resolved route (`routeData.data`). -/
inductive PageData where
  | home (collections : List Collection) (featured_products : List Product)
  | product (product : Product)
  | collection (collection : Collection) (products : List Product)
  | page (title : String) (content : String)
deriving DecidableEq

/-- A resolved route (`{ type, template, data }`). -/
structure RouteData where
  type : String
  template : Option String
  data : PageData
deriving DecidableEq

/-- Character class `[a-z0-9-]` of the route-handle regexes. -/
def isHandleChar (c : Char) : Bool :=
  isHandleAlnum c || c = '-'

/-- Strips `p` from the front of `l`; `none` when `p` is not a prefix. -/
def dropPre : List Char → List Char → Option (List Char)
  | [], l => some l
  | _ :: _, [] => none
  | p :: ps, c :: cs => if p = c then dropPre ps cs else none

/-- Embeds `path.match(/^<pre>([a-z0-9-]+)$/)`: the path is the literal
route namespace followed by one or more handle characters and nothing else. -/
def matchHandle (pre path : String) : Option String :=
  match dropPre pre.data path.data with
  | some rest =>
    if rest ≠ [] ∧ rest.all isHandleChar then some ⟨rest⟩ else none
  | none => none

/-- The `resolveRoute` route dispatcher of src/unnamed/part_000 (the
database-backed storefront router).  A thrown `Error` is `Except.error` of
its message. -/
def resolveRoute (tenantId : String)
    (getProducts : String → ProductQueryOptions → List Product)
    (getCollections : String → CollectionQueryOptions → List Collection)
    (path : String) : Except String RouteData :=
  if path = "/" ∨ path = "" then
    let collections := getCollections tenantId { limit := some 3 }
    let featuredProducts := getProducts tenantId { featured := some true, limit := some 8 }
    .ok { type := "home", template := some "index",
          data := .home collections featuredProducts }
  else
    match matchHandle "/products/" path with
    | some handle =>
      let products := getProducts tenantId { handle := some handle, limit := some 1 }
      match products.head? with
      | none => .error "Product not found"
      | some product =>
        .ok { type := "product", template := some "product", data := .product product }
    | none =>
    match matchHandle "/collections/" path with
    | some handle =>
      let collections := getCollections tenantId { handle := some handle, limit := some 1 }
      match collections.head? with
      | none => .error "Collection not found"
      | some collection =>
        let products := getProducts tenantId { collection_id := some collection.id }
        .ok { type := "collection", template := some "collection",
              data := .collection collection products }
    | none =>
    match matchHandle "/pages/" path with
    | some handle =>
      .ok { type := "page", template := some "page",
            data := .page handle "<p>Page content here</p>" }
    | none => .error "Page not found"

/-! ## Page renderer (`renderPage` in `src/services/renderer-service.ts`) -/

/-- A theme record (theme-service `Theme`): the template bundle is an
association list from template name to template source text. -/
structure Theme where
  id : String
  name : String
  version : String
  s3_key : String
  settings : Option String
  templates : List (String × String)
deriving DecidableEq

/-- Lookup of `theme.templates?.[name]`. -/
def lookupTemplate (theme : Theme) (nm : String) : Option String :=
  (theme.templates.find? (fun p => p.1 = nm)).map Prod.snd

/-- Request part of the render context. -/
structure RequestCtx where
  path : String
  query : List (String × String)
deriving DecidableEq

/-- Render context (`{ tenant, request }`). -/
structure RenderContext where
  tenant : Tenant
  request : RequestCtx
deriving DecidableEq

/-- The single binding scope merged for the template engine: route data,
`shop`, request context, theme settings, template name, and (for the layout
pass) `content_for_layout`. -/
structure Scope where
  data : PageData
  shopName : String
  shopUrl : String
  request : RequestCtx
  settings : Option String
  template : String
  current_page : String
  canonical_url : String
  content_for_layout : Option String
deriving DecidableEq

/-- Resolution of `routeData.template || 'index'` (empty string is falsy). -/
def resolvedTemplateName (rd : RouteData) : String :=
  jsOrStr rd.template "index"

/-- The binding scope built by `renderPage` (`templateData` in the source). -/
def renderScope (theme : Theme) (routeData : RouteData) (ctx : RenderContext) : Scope :=
  { data := routeData.data
    shopName := ctx.tenant.name
    shopUrl := "https://" ++ jsOrStr ctx.tenant.custom_domain
      (ctx.tenant.tenant_id ++ ".mystore.com")
    request := ctx.request
    settings := theme.settings
    template := resolvedTemplateName routeData
    current_page := ctx.request.path
    canonical_url := ctx.request.path
    content_for_layout := none }

/-- The HTML produced on `renderPage`'s success path: one engine pass over
the resolved template, then an optional second pass through the `layout`
template with the first output bound as `content_for_layout`. -/
def renderBody (engine : String → Scope → String) (theme : Theme)
    (routeData : RouteData) (ctx : RenderContext) : String :=
  let scope := renderScope theme routeData ctx
  let html := engine ((lookupTemplate theme (resolvedTemplateName routeData)).getD "") scope
  if jsTruthyStr (lookupTemplate theme "layout") then
    engine ((lookupTemplate theme "layout").getD "")
      { scope with content_for_layout := some html }
  else html

/-- The `renderPage` function of renderer-service.ts.  The Liquid engine is
abstracted as a function from template source and binding scope to HTML;
`!templateSource` fails for an absent name and for the empty source. -/
def renderPage (engine : String → Scope → String) (theme : Theme)
    (routeData : RouteData) (ctx : RenderContext) : Except String String :=
  if jsTruthyStr (lookupTemplate theme (resolvedTemplateName routeData)) then
    .ok (renderBody engine theme routeData ctx)
  else
    .error ("Template " ++ resolvedTemplateName routeData ++ " not found")

/-! ### Route matching lemmas -/

theorem dropPre_self_append (p rest : List Char) : dropPre p (p ++ rest) = some rest := by
  induction p with
  | nil => rfl
  | cons c cs ih => simp [dropPre, ih]

theorem dropPre_sound (p : List Char) :
    ∀ l r : List Char, dropPre p l = some r → l = p ++ r := by
  induction p with
  | nil => intro l r h; simpa [dropPre] using h
  | cons c cs ih =>
    intro l r h
    cases l with
    | nil => simp [dropPre] at h
    | cons d ds =>
      by_cases hcd : c = d
      · subst hcd
        simp only [dropPre, if_pos rfl] at h
        simpa using ih ds r h
      · simp [dropPre, hcd] at h

theorem matchHandle_append (pre h : String) (hne : h.data ≠ [])
    (hall : h.data.all isHandleChar = true) :
    matchHandle pre (pre ++ h) = some h := by
  unfold matchHandle
  rw [String.data_append, dropPre_self_append]
  simp [hne, hall]

theorem matchHandle_some (pre path h : String) (hm : matchHandle pre path = some h) :
    path = pre ++ h ∧ h.data ≠ [] ∧ h.data.all isHandleChar = true := by
  unfold matchHandle at hm
  cases hdp : dropPre pre.data path.data with
  | none => rw [hdp] at hm; simp at hm
  | some rest =>
    rw [hdp] at hm
    have hm2 : (if rest ≠ [] ∧ rest.all isHandleChar = true
        then some (⟨rest⟩ : String) else none) = some h := hm
    by_cases hc : rest ≠ [] ∧ rest.all isHandleChar = true
    · rw [if_pos hc] at hm2
      have hrh : h.data = rest := by
        have : (⟨rest⟩ : String) = h := by simpa using hm2
        rw [← this]
      have hpath : path.data = pre.data ++ rest := dropPre_sound pre.data path.data rest hdp
      refine ⟨?_, by rw [hrh]; exact hc.1, by rw [hrh]; exact hc.2⟩
      apply String.ext
      rw [String.data_append, hrh]
      exact hpath
    · rw [if_neg hc] at hm2; simp at hm2

theorem matchHandle_invalid (pre s : String) (hc : ¬ s.data.all isHandleChar = true) :
    matchHandle pre (pre ++ s) = none := by
  unfold matchHandle
  rw [String.data_append, dropPre_self_append]
  simp [hc]

theorem routeNs_length_big (pre : String)
    (hpre : pre = "/products/" ∨ pre = "/collections/" ∨ pre = "/pages/") (s : String) :
    ¬(pre ++ s = "/" ∨ pre ++ s = "") := by
  intro hor
  have hlen : (pre ++ s).length = pre.length + s.length := String.length_append pre s
  have hbig : 7 ≤ pre.length := by
    rcases hpre with h | h | h <;> rw [h] <;> decide
  rcases hor with h | h
  · rw [h] at hlen
    have h1 : ("/" : String).length = 1 := rfl
    rw [h1] at hlen
    omega
  · rw [h] at hlen
    have h1 : ("" : String).length = 0 := rfl
    rw [h1] at hlen
    omega

/-! ### C7: dispatch order and handle character class -/

/-- Spec-side route patterns, written from the specification: a handle is a
nonempty string over lowercase letters, digits and hyphens. -/
def specHandle (h : String) : Prop :=
  h ≠ "" ∧ ∀ c ∈ h.data, isHandleChar c = true

/-- C7: `resolveRoute` dispatches purely on the path in the fixed priority
order root, `/products/{handle}`, `/collections/{handle}`, `/pages/{handle}`,
otherwise a not-found error; and a handle segment with a character outside
`[a-z0-9-]` matches no pattern and falls through to not-found. -/
theorem resolveRoute_dispatch (t : String)
    (gp : String → ProductQueryOptions → List Product)
    (gc : String → CollectionQueryOptions → List Collection) :
    (resolveRoute t gp gc "/" =
      .ok { type := "home", template := some "index",
            data := .home (gc t { limit := some 3 })
              (gp t { featured := some true, limit := some 8 }) } ∧
     resolveRoute t gp gc "" =
      .ok { type := "home", template := some "index",
            data := .home (gc t { limit := some 3 })
              (gp t { featured := some true, limit := some 8 }) }) ∧
    (∀ h, specHandle h →
      resolveRoute t gp gc ("/products/" ++ h) =
        match (gp t { handle := some h, limit := some 1 }).head? with
        | none => .error "Product not found"
        | some p =>
          .ok { type := "product", template := some "product", data := .product p }) ∧
    (∀ h, specHandle h →
      resolveRoute t gp gc ("/collections/" ++ h) =
        match (gc t { handle := some h, limit := some 1 }).head? with
        | none => .error "Collection not found"
        | some c =>
          .ok { type := "collection", template := some "collection",
                data := .collection c (gp t { collection_id := some c.id }) }) ∧
    (∀ h, specHandle h →
      resolveRoute t gp gc ("/pages/" ++ h) =
        .ok { type := "page", template := some "page",
              data := .page h "<p>Page content here</p>" }) ∧
    (∀ path, ¬(path = "/" ∨ path = "") →
      (∀ h, specHandle h → path ≠ "/products/" ++ h) →
      (∀ h, specHandle h → path ≠ "/collections/" ++ h) →
      (∀ h, specHandle h → path ≠ "/pages/" ++ h) →
      resolveRoute t gp gc path = .error "Page not found") ∧
    (∀ pre s, (pre = "/products/" ∨ pre = "/collections/" ∨ pre = "/pages/") →
      (∃ c ∈ s.data, ¬ isHandleChar c = true) →
      resolveRoute t gp gc (pre ++ s) = .error "Page not found") := by
  have hdata_ne : ∀ h : String, h ≠ "" → h.data ≠ [] := by
    intro h hne hcon
    exact hne (String.ext (by simp [hcon]))
  have hall_of : ∀ h : String, (∀ c ∈ h.data, isHandleChar c = true) →
      h.data.all isHandleChar = true := by
    intro h hf
    exact List.all_eq_true.mpr hf
  have hmnone : ∀ (pre path : String),
      (∀ h, specHandle h → path ≠ pre ++ h) → matchHandle pre path = none := by
    intro pre path hno
    cases hm : matchHandle pre path with
    | none => rfl
    | some h =>
      obtain ⟨hpath, hne, hall⟩ := matchHandle_some pre path h hm
      exfalso
      refine hno h ⟨?_, ?_⟩ hpath
      · intro hcontra
        exact hne (by rw [hcontra])
      · exact List.all_eq_true.mp hall
  refine ⟨⟨rfl, rfl⟩, ?_, ?_, ?_, ?_, ?_⟩
  · intro h hs
    have hroot := routeNs_length_big "/products/" (Or.inl rfl) h
    simp only [resolveRoute, if_neg hroot,
      matchHandle_append "/products/" h (hdata_ne h hs.1) (hall_of h hs.2)]
  · intro h hs
    have hroot := routeNs_length_big "/collections/" (Or.inr (Or.inl rfl)) h
    have hm1 : matchHandle "/products/" ("/collections/" ++ h) = none := by
      unfold matchHandle; rw [String.data_append]; rfl
    simp only [resolveRoute, if_neg hroot, hm1,
      matchHandle_append "/collections/" h (hdata_ne h hs.1) (hall_of h hs.2)]
  · intro h hs
    have hroot := routeNs_length_big "/pages/" (Or.inr (Or.inr rfl)) h
    have hm1 : matchHandle "/products/" ("/pages/" ++ h) = none := by
      unfold matchHandle; rw [String.data_append]; rfl
    have hm2 : matchHandle "/collections/" ("/pages/" ++ h) = none := by
      unfold matchHandle; rw [String.data_append]; rfl
    simp only [resolveRoute, if_neg hroot, hm1, hm2,
      matchHandle_append "/pages/" h (hdata_ne h hs.1) (hall_of h hs.2)]
  · intro path hroot hp hc hg
    simp only [resolveRoute, if_neg hroot, hmnone "/products/" path hp,
      hmnone "/collections/" path hc, hmnone "/pages/" path hg]
  · intro pre s hpre hbad
    obtain ⟨c, hcmem, hcbad⟩ := hbad
    have hsall : ¬ s.data.all isHandleChar = true := by
      intro hall
      exact hcbad (List.all_eq_true.mp hall c hcmem)
    have hroot := routeNs_length_big pre hpre s
    rcases hpre with h | h | h <;> subst h
    · have hm2 : matchHandle "/collections/" ("/products/" ++ s) = none := by
        unfold matchHandle; rw [String.data_append]; rfl
      have hm3 : matchHandle "/pages/" ("/products/" ++ s) = none := by
        unfold matchHandle; rw [String.data_append]; rfl
      simp only [resolveRoute, if_neg hroot,
        matchHandle_invalid "/products/" s hsall, hm2, hm3]
    · have hm1 : matchHandle "/products/" ("/collections/" ++ s) = none := by
        unfold matchHandle; rw [String.data_append]; rfl
      have hm3 : matchHandle "/pages/" ("/collections/" ++ s) = none := by
        unfold matchHandle; rw [String.data_append]; rfl
      simp only [resolveRoute, if_neg hroot, hm1,
        matchHandle_invalid "/collections/" s hsall, hm3]
    · have hm1 : matchHandle "/products/" ("/pages/" ++ s) = none := by
        unfold matchHandle; rw [String.data_append]; rfl
      have hm2 : matchHandle "/collections/" ("/pages/" ++ s) = none := by
        unfold matchHandle; rw [String.data_append]; rfl
      simp only [resolveRoute, if_neg hroot, hm1, hm2,
        matchHandle_invalid "/pages/" s hsall]

/-- A catalog with no entities at all. -/
def emptyProducts : String → ProductQueryOptions → List Product := fun _ _ => []

/-- A collection catalog with no entities at all. -/
def emptyCollections : String → CollectionQueryOptions → List Collection := fun _ _ => []

/-- Closed instantiation of `resolveRoute_dispatch`: an uppercase handle
segment falls through to the not-found error. -/
theorem resolveRoute_dispatch_witness :
    resolveRoute "t1" emptyProducts emptyCollections "/products/Bad!" =
      .error "Page not found" :=
  (resolveRoute_dispatch "t1" emptyProducts emptyCollections).2.2.2.2.2
    "/products/" "Bad!" (Or.inl rfl) ⟨'B', by decide, by decide⟩

/-! ### C3: unknown handles on matched routes -/

/-- C3 counterexample: for the `/pages/{handle}` pattern the resolver never
checks whether the page exists — with a catalog holding no entities at all,
`resolveRoute "/pages/about"` succeeds with a placeholder page instead of
yielding a not-found failure. -/
theorem resolveRoute_pages_counterexample :
    resolveRoute "t1" emptyProducts emptyCollections "/pages/about" =
      .ok { type := "page", template := some "page",
            data := .page "about" "<p>Page content here</p>" } ∧
    emptyProducts = (fun _ _ => []) ∧ emptyCollections = (fun _ _ => []) :=
  ⟨rfl, rfl, rfl⟩

/-- C3 amended: for `/products/{handle}` and `/collections/{handle}` an
unknown handle yields a thrown not-found error (never a rendered empty
page), while `/pages/{handle}` always succeeds with a placeholder page
regardless of tenant data (the page-service fetch is an unimplemented
TODO in the source). -/
theorem resolveRoute_unknown_handle (t : String)
    (gp : String → ProductQueryOptions → List Product)
    (gc : String → CollectionQueryOptions → List Collection)
    (h : String) (hs : specHandle h) :
    (gp t { handle := some h, limit := some 1 } = [] →
      resolveRoute t gp gc ("/products/" ++ h) = .error "Product not found") ∧
    (gc t { handle := some h, limit := some 1 } = [] →
      resolveRoute t gp gc ("/collections/" ++ h) = .error "Collection not found") ∧
    resolveRoute t gp gc ("/pages/" ++ h) =
      .ok { type := "page", template := some "page",
            data := .page h "<p>Page content here</p>" } := by
  obtain ⟨_, hprod, hcoll, hpage, _, _⟩ := resolveRoute_dispatch t gp gc
  refine ⟨?_, ?_, hpage h hs⟩
  · intro hempty
    rw [hprod h hs, hempty]
    rfl
  · intro hempty
    rw [hcoll h hs, hempty]
    rfl

/-- Closed instantiation of `resolveRoute_unknown_handle` on an empty
catalog. -/
theorem resolveRoute_unknown_handle_witness :
    resolveRoute "t1" emptyProducts emptyCollections "/products/no-such-item" =
      .error "Product not found" :=
  (resolveRoute_unknown_handle "t1" emptyProducts emptyCollections "no-such-item"
    ⟨by decide, by decide⟩).1 rfl

/-! ### C10: template fallback in renderPage -/

/-- A render context used for concrete evaluations. -/
def sampleCtx : RenderContext :=
  { tenant := { id := "1", tenant_id := "t1", name := "Demo Shop",
                custom_domain := none, status := "active" },
    request := { path := "/", query := [] } }

/-- An engine that returns the template source unchanged. -/
def idEngine : String → Scope → String := fun src _ => src

/-- A route with no template name set. -/
def noTemplateRoute : RouteData :=
  { type := "home", template := none, data := .page "home" "" }

/-- A theme whose `index` template is present in the template map but holds
the empty source string. -/
def emptyIndexTheme : Theme :=
  { id := "th1", name := "Main", version := "1", s3_key := "themes/t1/1",
    settings := none, templates := [("index", "")] }

/-- C10 counterexample: with `index` present in the template map but bound
to the empty string, `renderPage` raises the missing-template failure even
though the resolved name is not absent from the map — JavaScript
`!templateSource` treats the empty source as missing. -/
theorem renderPage_empty_template_counterexample :
    lookupTemplate emptyIndexTheme "index" = some "" ∧
    renderPage idEngine emptyIndexTheme noTemplateRoute sampleCtx =
      .error "Template index not found" :=
  ⟨rfl, rfl⟩

/-- C10 amended: when `routeData.template` is absent or empty the resolved
name falls back to `index`; `renderPage` succeeds exactly when the resolved
name maps to a non-empty source in the template map, and raises the
missing-template failure exactly when the name is absent or maps to the
empty source. -/
theorem renderPage_fallback (engine : String → Scope → String) (theme : Theme)
    (rd : RouteData) (ctx : RenderContext) :
    (rd.template = none ∨ rd.template = some "" → resolvedTemplateName rd = "index") ∧
    ((∃ html, renderPage engine theme rd ctx = .ok html) ↔
      jsTruthyStr (lookupTemplate theme (resolvedTemplateName rd)) = true) ∧
    (renderPage engine theme rd ctx =
        .error ("Template " ++ resolvedTemplateName rd ++ " not found") ↔
      jsTruthyStr (lookupTemplate theme (resolvedTemplateName rd)) = false) := by
  refine ⟨?_, ?_, ?_⟩
  · rintro (hnone | hempty)
    · rw [resolvedTemplateName, hnone]; rfl
    · rw [resolvedTemplateName, hempty]; rfl
  · constructor
    · rintro ⟨html, heq⟩
      by_cases ht : jsTruthyStr (lookupTemplate theme (resolvedTemplateName rd)) = true
      · exact ht
      · rw [renderPage, if_neg ht] at heq
        cases heq
    · intro ht
      exact ⟨renderBody engine theme rd ctx, by rw [renderPage, if_pos ht]⟩
  · constructor
    · intro heq
      by_cases ht : jsTruthyStr (lookupTemplate theme (resolvedTemplateName rd)) = true
      · rw [renderPage, if_pos ht] at heq
        cases heq
      · simpa using ht
    · intro ht
      rw [renderPage, if_neg (by simp [ht])]

/-- A theme with a non-empty `index` template. -/
def okIndexTheme : Theme :=
  { id := "th2", name := "Main", version := "2", s3_key := "themes/t1/2",
    settings := none, templates := [("index", "<h1>home</h1>")] }

/-- Closed instantiation of `renderPage_fallback`: an absent template name
resolves to `index` and renders the non-empty `index` template. -/
theorem renderPage_fallback_witness :
    resolvedTemplateName noTemplateRoute = "index" ∧
    (∃ html, renderPage idEngine okIndexTheme noTemplateRoute sampleCtx = .ok html) :=
  ⟨(renderPage_fallback idEngine okIndexTheme noTemplateRoute sampleCtx).1 (Or.inl rfl),
   ((renderPage_fallback idEngine okIndexTheme noTemplateRoute sampleCtx).2.1).mpr (by decide)⟩

/-! ## Tenant resolver (`getTenantFromHost` in `src/services/tenant-service.ts`) -/

/-- Association-list lookup modelling a key-value cache `get`. -/
def cacheGet {α : Type} (cache : List (String × α)) (k : String) : Option α :=
  (cache.find? (fun p => p.1 = k)).map Prod.snd

/-- A row of the `platform.domain_mapping` table. -/
structure DomainMapping where
  tenant_id : String
  domain : String
  verified : Bool
deriving DecidableEq

/-- The SQL join of `platform.tenants` with `platform.domain_mapping`
filtered to `dm.domain = host AND dm.verified = true AND t.status =
'active'`; `result.rows[0]` is the first matching tenant. -/
def tenantQuery (tenants : List Tenant) (mappings : List DomainMapping)
    (host : String) : Option Tenant :=
  tenants.find? fun t =>
    t.status = "active" &&
    mappings.any fun dm =>
      dm.domain = host && dm.tenant_id = t.tenant_id && dm.verified

/-- The `getTenantFromHost` cache-aside lookup.  The Redis cache is an
association list from full key to the cached tenant; the registry is the
pair of tables.  Cache and registry calls are modelled on their success
path (errors would propagate, which the claim conditions away). -/
def getTenantFromHost (cache : List (String × Tenant)) (tenants : List Tenant)
    (mappings : List DomainMapping) (host : String) :
    Option Tenant × List (String × Tenant) :=
  let cacheKey := "tenant:host:" ++ host
  match cacheGet cache cacheKey with
  | some t => (some t, cache)
  | none =>
    match tenantQuery tenants mappings host with
    | none => (none, cache)
    | some t => (some t, (cacheKey, t) :: cache)

/-- A tenant row used in concrete evaluations. -/
def sampleTenant : Tenant :=
  { id := "1", tenant_id := "t1", name := "Demo Shop",
    custom_domain := some "shop.example", status := "active" }

/-- C8 counterexample: with a stale cache entry for the host and a registry
holding no domain mapping at all, `getTenantFromHost` returns the cached
tenant, not the not-found result the claim demands for a host with no
active, verified mapping. -/
theorem getTenantFromHost_stale_counterexample :
    (getTenantFromHost [("tenant:host:shop.example", sampleTenant)] [] []
        "shop.example").1 = some sampleTenant ∧
    tenantQuery [] [] "shop.example" = none :=
  ⟨rfl, rfl⟩

/-- C8 amended: provided the cache holds no entry for the host (the
documented invalidate-on-change protocol), a host with no active, verified
domain mapping resolves to not-found (`null`), never an error, and the
cache is left unchanged. -/
theorem getTenantFromHost_not_found (cache : List (String × Tenant))
    (tenants : List Tenant) (mappings : List DomainMapping) (host : String)
    (hmiss : cacheGet cache ("tenant:host:" ++ host) = none)
    (hnomap : ∀ t ∈ tenants, ∀ dm ∈ mappings, dm.domain = host →
      dm.tenant_id = t.tenant_id → dm.verified = true → t.status ≠ "active") :
    (getTenantFromHost cache tenants mappings host).1 = none ∧
    (getTenantFromHost cache tenants mappings host).2 = cache := by
  have hq : tenantQuery tenants mappings host = none := by
    apply List.find?_eq_none.mpr
    intro t ht hpred
    simp only [Bool.and_eq_true, decide_eq_true_eq, List.any_eq_true] at hpred
    obtain ⟨hstatus, dm, hdm, hmatch⟩ := hpred
    exact hnomap t ht dm hdm hmatch.1.1 hmatch.1.2 hmatch.2 hstatus
  rw [getTenantFromHost]
  rw [hmiss, hq]
  exact ⟨rfl, rfl⟩

/-- Closed instantiation of `getTenantFromHost_not_found`: an unknown host
against an empty cache and an unverified mapping resolves to `none`. -/
theorem getTenantFromHost_not_found_witness :
    (getTenantFromHost [] [sampleTenant]
        [{ tenant_id := "t1", domain := "other.example", verified := false }]
        "unknown.example").1 = none :=
  (getTenantFromHost_not_found [] [sampleTenant]
    [{ tenant_id := "t1", domain := "other.example", verified := false }]
    "unknown.example" rfl (by decide)).1

/-! ## Theme loader (`getThemeForTenant` in `src/services/theme-service.ts`) -/

/-- The two cache tiers of the theme loader: the process-local NodeCache
and the distributed Redis cache, both keyed by `theme:{tenantId}`. -/
structure ThemeCacheState where
  mem : List (String × Theme)
  redis : List (String × Theme)
deriving DecidableEq

/-- Result of one `getThemeForTenant` call: the returned theme, the cache
state afterwards, and whether the database/S3 storage path was touched. -/
structure ThemeLookupResult where
  theme : Option Theme
  state : ThemeCacheState
  touchedStorage : Bool
deriving DecidableEq

/-- The `getThemeForTenant` three-tier cache-aside lookup.  `storage` is
the `loadThemeFromStorage` database-plus-S3 load on its success path. -/
def getThemeForTenant (st : ThemeCacheState) (storage : String → Option Theme)
    (tenantId : String) : ThemeLookupResult :=
  let cacheKey := "theme:" ++ tenantId
  match cacheGet st.mem cacheKey with
  | some theme => { theme := some theme, state := st, touchedStorage := false }
  | none =>
    match cacheGet st.redis cacheKey with
    | some theme =>
      { theme := some theme,
        state := { st with mem := (cacheKey, theme) :: st.mem },
        touchedStorage := false }
    | none =>
      match storage tenantId with
      | none => { theme := none, state := st, touchedStorage := true }
      | some theme =>
        { theme := some theme,
          state := { mem := (cacheKey, theme) :: st.mem,
                     redis := (cacheKey, theme) :: st.redis },
          touchedStorage := true }

/-- C6: when both cache tiers miss and the storage load yields a theme,
`getThemeForTenant` returns that theme with both tiers populated under
`theme:{tenantId}` before returning, and a subsequent lookup returns the
same theme without touching storage. -/
theorem getThemeForTenant_populates (st : ThemeCacheState)
    (storage : String → Option Theme) (tenantId : String) (t : Theme)
    (hm : cacheGet st.mem ("theme:" ++ tenantId) = none)
    (hr : cacheGet st.redis ("theme:" ++ tenantId) = none)
    (hs : storage tenantId = some t) :
    (getThemeForTenant st storage tenantId).theme = some t ∧
    (getThemeForTenant st storage tenantId).touchedStorage = true ∧
    cacheGet (getThemeForTenant st storage tenantId).state.mem
      ("theme:" ++ tenantId) = some t ∧
    cacheGet (getThemeForTenant st storage tenantId).state.redis
      ("theme:" ++ tenantId) = some t ∧
    (getThemeForTenant (getThemeForTenant st storage tenantId).state storage
      tenantId).theme = some t ∧
    (getThemeForTenant (getThemeForTenant st storage tenantId).state storage
      tenantId).touchedStorage = false := by
  have hres : getThemeForTenant st storage tenantId =
      { theme := some t,
        state := { mem := ("theme:" ++ tenantId, t) :: st.mem,
                   redis := ("theme:" ++ tenantId, t) :: st.redis },
        touchedStorage := true } := by
    rw [getThemeForTenant]
    rw [hm, hr, hs]
  have hhit : cacheGet (("theme:" ++ tenantId, t) :: st.mem)
      ("theme:" ++ tenantId) = some t := by
    simp [cacheGet, List.find?]
  refine ⟨by rw [hres], by rw [hres], ?_, ?_, ?_, ?_⟩
  · rw [hres]; exact hhit
  · rw [hres]
    simp [cacheGet, List.find?]
  · rw [hres, getThemeForTenant]
    rw [hhit]
  · rw [hres, getThemeForTenant]
    rw [hhit]

/-- A theme used in concrete evaluations. -/
def sampleTheme : Theme :=
  { id := "th1", name := "Main", version := "1", s3_key := "themes/t1/1",
    settings := none, templates := [("index", "<h1>home</h1>")] }

/-- Closed instantiation of `getThemeForTenant_populates` on empty caches. -/
theorem getThemeForTenant_populates_witness :
    (getThemeForTenant { mem := [], redis := [] }
      (fun tid => if tid = "t1" then some sampleTheme else none) "t1").theme =
      some sampleTheme ∧
    (getThemeForTenant (getThemeForTenant { mem := [], redis := [] }
        (fun tid => if tid = "t1" then some sampleTheme else none) "t1").state
      (fun tid => if tid = "t1" then some sampleTheme else none) "t1").touchedStorage
      = false := by
  have h := getThemeForTenant_populates { mem := [], redis := [] }
    (fun tid => if tid = "t1" then some sampleTheme else none) "t1" sampleTheme
    rfl rfl rfl
  exact ⟨h.1, h.2.2.2.2.2⟩

/-! ## Theme storage load (`loadThemeFromStorage` and
`fetchThemeTemplatesFromS3` in `src/services/theme-service.ts`) -/

/-- Outcome of one S3 `GetObjectCommand`: a body, a `NoSuchKey` error
(missing file), or any other error (whose `error.name !== 'NoSuchKey'`). -/
inductive S3Result where
  | ok (body : String)
  | noSuchKey
  | otherError
deriving DecidableEq

/-- The fixed list of template files the loader fetches. -/
def templateFiles : List String :=
  ["index", "product", "collection", "page", "cart", "search"]

/-- The `fetchThemeTemplatesFromS3` loop: each template is fetched at
`{s3Key}/templates/{name}.liquid`; the body is inserted only when the
fetch succeeds with a non-empty body (`if (body)`); both `NoSuchKey` and
any other error leave the name out (the catch block logs non-`NoSuchKey`
errors but never rethrows). -/
def fetchThemeTemplatesFromS3 (s3 : String → S3Result) (s3Key : String) :
    List (String × String) :=
  templateFiles.filterMap fun templateName =>
    match s3 (s3Key ++ "/templates/" ++ templateName ++ ".liquid") with
    | .ok body => if body ≠ "" then some (templateName, body) else none
    | .noSuchKey => none
    | .otherError => none

/-- A theme metadata row from `tenant_{tenantId}.themes WHERE role =
'main'`. -/
structure ThemeRow where
  id : String
  name : String
  version : String
  s3_key : String
  settings : Option String
deriving DecidableEq

/-- The `loadThemeFromStorage` function: a database error propagates, no
`main`-role theme row yields `none`, otherwise the template bundle is
fetched from S3 and attached. -/
def loadThemeFromStorage (db : Except Unit (Option ThemeRow))
    (s3 : String → S3Result) : Except Unit (Option Theme) :=
  match db with
  | .error e => .error e
  | .ok none => .ok none
  | .ok (some row) =>
    .ok (some { id := row.id, name := row.name, version := row.version,
                s3_key := row.s3_key, settings := row.settings,
                templates := fetchThemeTemplatesFromS3 s3 row.s3_key })

theorem fetchThemeTemplatesFromS3_mem (s3 : String → S3Result) (s3Key : String)
    (nm body : String) :
    (nm, body) ∈ fetchThemeTemplatesFromS3 s3 s3Key ↔
      nm ∈ templateFiles ∧
      s3 (s3Key ++ "/templates/" ++ nm ++ ".liquid") = .ok body ∧ body ≠ "" := by
  unfold fetchThemeTemplatesFromS3
  rw [List.mem_filterMap]
  constructor
  · rintro ⟨a, ha, hfa⟩
    cases hs : s3 (s3Key ++ "/templates/" ++ a ++ ".liquid") with
    | ok b =>
      rw [hs] at hfa
      have hfa2 : (if b ≠ "" then some (a, b) else none) = some (nm, body) := hfa
      by_cases hb : b ≠ ""
      · rw [if_pos hb] at hfa2
        obtain ⟨rfl, rfl⟩ : a = nm ∧ b = body := by
          constructor <;> [exact congrArg Prod.fst (Option.some.inj hfa2);
            exact congrArg Prod.snd (Option.some.inj hfa2)]
        exact ⟨ha, hs, hb⟩
      · rw [if_neg hb] at hfa2; cases hfa2
    | noSuchKey =>
      rw [hs] at hfa
      exact absurd hfa (by simp)
    | otherError =>
      rw [hs] at hfa
      exact absurd hfa (by simp)
  · rintro ⟨hmem, hs, hb⟩
    refine ⟨nm, hmem, ?_⟩
    rw [hs]
    show (if body ≠ "" then some (nm, body) else none) = some (nm, body)
    rw [if_pos hb]

/-- A sample theme metadata row. -/
def sampleRow : ThemeRow :=
  { id := "th1", name := "Main", version := "1", s3_key := "themes/t1/1",
    settings := none }

/-- An S3 store whose `product` template fetch fails with a
non-`NoSuchKey` error while every other template fetch succeeds. -/
def failingProductS3 : String → S3Result := fun key =>
  if key = "themes/t1/1/templates/product.liquid" then .otherError
  else .ok "tpl"

/-- C2 counterexample: a blob-storage error on one template fetch does not
make the load fail — the load succeeds with the template omitted, refuting
that the load fails exactly when a blob-storage call errors. -/
theorem loadThemeFromStorage_error_counterexample :
    failingProductS3 "themes/t1/1/templates/product.liquid" = .otherError ∧
    loadThemeFromStorage (.ok (some sampleRow)) failingProductS3 =
      .ok (some { id := "th1", name := "Main", version := "1",
                  s3_key := "themes/t1/1", settings := none,
                  templates := [("index", "tpl"), ("collection", "tpl"),
                                ("page", "tpl"), ("cart", "tpl"),
                                ("search", "tpl")] }) := by
  constructor
  · rfl
  · rfl

/-- C2 amended: a missing template file and a blob-storage error on an
individual template fetch are both tolerated (the name is omitted from the
bundle); the load fails exactly when the registry (database) call errors.
A name is in the returned bundle exactly when its fetch succeeded with a
non-empty body. -/
theorem loadThemeFromStorage_spec (db : Except Unit (Option ThemeRow))
    (s3 : String → S3Result) :
    ((loadThemeFromStorage db s3).isOk ↔ db.isOk) ∧
    (∀ row theme, db = .ok (some row) →
      loadThemeFromStorage db s3 = .ok (some theme) →
      ∀ nm body, (nm, body) ∈ theme.templates ↔
        nm ∈ templateFiles ∧
        s3 (row.s3_key ++ "/templates/" ++ nm ++ ".liquid") = .ok body ∧
        body ≠ "") := by
  constructor
  · cases db with
    | error e => simp [loadThemeFromStorage, Except.isOk, Except.toBool]
    | ok o =>
      cases o with
      | none => simp [loadThemeFromStorage, Except.isOk, Except.toBool]
      | some row => simp [loadThemeFromStorage, Except.isOk, Except.toBool]
  · intro row theme hdb hload nm body
    subst hdb
    rw [loadThemeFromStorage] at hload
    have htheme : theme.templates = fetchThemeTemplatesFromS3 s3 row.s3_key := by
      have := Option.some.inj (Except.ok.inj hload)
      rw [← this]
    rw [htheme]
    exact fetchThemeTemplatesFromS3_mem s3 row.s3_key nm body

/-- Closed instantiation of `loadThemeFromStorage_spec`: the `product`
template whose fetch errored is absent from the loaded bundle. -/
theorem loadThemeFromStorage_spec_witness :
    ¬ ("product", "tpl") ∈
      ((loadThemeFromStorage (.ok (some sampleRow)) failingProductS3).toOption.getD
        none |>.getD { id := "", name := "", version := "", s3_key := "",
                       settings := none, templates := [] }).templates := by
  intro hmem
  have hspec := (loadThemeFromStorage_spec (.ok (some sampleRow)) failingProductS3).2
    sampleRow
    (((loadThemeFromStorage (.ok (some sampleRow)) failingProductS3).toOption.getD
        none).getD { id := "", name := "", version := "", s3_key := "",
                     settings := none, templates := [] })
    rfl rfl "product" "tpl"
  have := hspec.mp hmem
  exact absurd this.2.1 (by decide)

/-! ## Catalog caching and bulk invalidation
(`getProducts`/`getCollections`/`invalidateProductCache` in
`src/services/product-service.ts` — src/unnamed/part_005 — and
`getProductsFromService` in `src/services/microservices.ts` —
src/unnamed/part_004)

The distributed cache server is an association list from physical key
string to the stored JSON string.  The ioredis client is constructed with
`keyPrefix: config.redis.keyPrefix` (services index): the client prepends
the prefix to the key arguments of `get`, `setex` and `del`, while the
pattern argument of `keys` is not a key position and is sent verbatim, and
`keys` returns the physical keys as stored on the server. -/

/-- Boolean string-prefix test; a Redis glob pattern `p*` matches exactly
the keys with prefix `p`. -/
def strIsPre (p s : String) : Bool := p.data.isPrefixOf s.data

/-- The configured key namespace, `process.env.REDIS_KEY_PREFIX ||
'renderer:'` (config in `src/utils`, zod default `'renderer:'`): an unset
or empty environment value falls back to `renderer:`. -/
def redisKeyPrefix (envValue : Option String) : String :=
  jsOrStr envValue "renderer:"

/-- The configured key namespace is never the empty string. -/
theorem redisKeyPrefix_ne_empty (envValue : Option String) :
    redisKeyPrefix envValue ≠ "" := by
  unfold redisKeyPrefix jsOrStr
  cases envValue with
  | none => decide
  | some s =>
    show (if s = "" then "renderer:" else s) ≠ ""
    by_cases hs : s = ""
    · rw [if_pos hs]; decide
    · rw [if_neg hs]; exact hs

/-- ioredis `get`: the key argument is prefixed with the client's
`keyPrefix` before hitting the server. -/
def redisGetOp (pre : String) (store : List (String × String)) (k : String) :
    Option String :=
  cacheGet store (pre ++ k)

/-- ioredis `setex` (expiry not modelled): the key argument is prefixed. -/
def redisSetex (pre : String) (store : List (String × String)) (k v : String) :
    List (String × String) :=
  (pre ++ k, v) :: store

/-- ioredis `keys pattern` for a pattern of the form `patternPre ++ "*"`:
the pattern is sent verbatim (KEYS has no key argument positions, so the
client does not prefix it) and the server returns the matching physical
keys. -/
def redisKeys (store : List (String × String)) (patternPre : String) :
    List String :=
  (store.filter (fun kv => strIsPre patternPre kv.1)).map Prod.fst

/-- ioredis `del(...keys)`: every key argument is prefixed with the
client's `keyPrefix` before the server deletes it. -/
def redisDel (pre : String) (store : List (String × String))
    (ks : List String) : List (String × String) :=
  store.filter (fun kv => !(decide (kv.1 ∈ ks.map (fun k => pre ++ k))))

/-- Cache key of `getProducts`: `products:{tenantId}:{JSON.stringify(options)}`. -/
def productsCacheKey (tenantId optionsJson : String) : String :=
  "products:" ++ tenantId ++ ":" ++ optionsJson

/-- Cache key of `getCollections`: `collections:{tenantId}:{JSON.stringify(options)}`. -/
def collectionsCacheKey (tenantId optionsJson : String) : String :=
  "collections:" ++ tenantId ++ ":" ++ optionsJson

/-- Cache key of `getProductsFromService`:
`storefront:products:{tenantId}:{JSON.stringify(options)}`. -/
def storefrontProductsCacheKey (tenantId optionsJson : String) : String :=
  "storefront:products:" ++ tenantId ++ ":" ++ optionsJson

/-- The cache-aside skeleton shared by `getProducts`, `getCollections` and
`getProductsFromService`, going through the prefixing client: return the
cached JSON under the logical `cacheKey` on a hit, otherwise use the
source-of-truth result and write it through. -/
def cacheAside (pre : String) (store : List (String × String))
    (cacheKey sourceResult : String) : String × List (String × String) :=
  match redisGetOp pre store cacheKey with
  | some cached => (cached, store)
  | none => (sourceResult, redisSetex pre store cacheKey sourceResult)

/-- `getProducts` of product-service.ts (cache effect): the serialized
query result is cached under the products key, physically stored as
`{keyPrefix}products:{tenantId}:{json}`. -/
def getProductsCached (pre : String) (store : List (String × String))
    (tenantId optionsJson dbResultJson : String) :
    String × List (String × String) :=
  cacheAside pre store (productsCacheKey tenantId optionsJson) dbResultJson

/-- `getCollections` of product-service.ts (cache effect). -/
def getCollectionsCached (pre : String) (store : List (String × String))
    (tenantId optionsJson dbResultJson : String) :
    String × List (String × String) :=
  cacheAside pre store (collectionsCacheKey tenantId optionsJson) dbResultJson

/-- `getProductsFromService` of microservices.ts (cache effect): the
products-service response is cached under the `storefront:products:` key. -/
def getProductsFromServiceCached (pre : String) (store : List (String × String))
    (tenantId optionsJson serviceResultJson : String) :
    String × List (String × String) :=
  cacheAside pre store (storefrontProductsCacheKey tenantId optionsJson)
    serviceResultJson

/-- The `invalidateProductCache` bulk invalidation as written: the `KEYS`
pattern is built with the key prefix prepended manually
(`${config.redis.keyPrefix}products:${tenantId}:*`), the returned physical
keys are passed to `del` when non-empty, and the same is repeated for the
collections pattern. -/
def invalidateProductCache (pre tenantId : String)
    (store : List (String × String)) : List (String × String) :=
  let keys := redisKeys store (pre ++ "products:" ++ tenantId ++ ":")
  let store1 := if keys.length > 0 then redisDel pre store keys else store
  let collectionKeys :=
    redisKeys store1 (pre ++ "collections:" ++ tenantId ++ ":")
  if collectionKeys.length > 0 then redisDel pre store1 collectionKeys
  else store1

theorem string_append_left_cancel (p a b : String) (h : p ++ a = p ++ b) :
    a = b := by
  have hd := congrArg String.data h
  rw [String.data_append, String.data_append] at hd
  exact String.ext (List.append_cancel_left hd)

theorem strIsPre_of_append (a b k : String)
    (h : strIsPre (a ++ b) k = true) : strIsPre a k = true := by
  have h1 : (a ++ b).data <+: k.data := List.isPrefixOf_iff_prefix.mp h
  rw [String.data_append] at h1
  exact List.isPrefixOf_iff_prefix.mpr
    ((List.prefix_append a.data b.data).trans h1)

theorem redisKeys_forall (store : List (String × String)) (patternPre : String) :
    ∀ k ∈ redisKeys store patternPre, strIsPre patternPre k = true := by
  intro k hk
  unfold redisKeys at hk
  obtain ⟨kv, hkv, hfst⟩ := List.mem_map.mp hk
  have := (List.mem_filter.mp hkv).2
  rw [hfst] at this
  exact this

theorem redisDel_no_op (pre : String) (store : List (String × String))
    (ks : List String) (hks : ∀ k ∈ ks, strIsPre pre k = true)
    (hstore : ∀ kv ∈ store, ∃ logicalKey,
      kv.1 = pre ++ logicalKey ∧ strIsPre pre logicalKey = false) :
    redisDel pre store ks = store := by
  unfold redisDel
  apply List.filter_eq_self.mpr
  intro kv hkv
  obtain ⟨l, hl, hlp⟩ := hstore kv hkv
  have hnot : ¬ kv.1 ∈ ks.map (fun k => pre ++ k) := by
    intro hmem
    obtain ⟨k, hkmem, hpk⟩ := List.mem_map.mp hmem
    have hkl : k = l := string_append_left_cancel pre k l (by rw [hpk, hl])
    have hkpre := hks k hkmem
    rw [hkl, hlp] at hkpre
    cases hkpre
  simp [hnot]

/-- C1 (code bug): every physical key on the server was written by the
prefixing client, so it is `keyPrefix ++ logicalKey` with a logical key
that does not itself start with the prefix (the logical namespaces are
`products:`, `collections:`, `storefront:…`, `theme:`, `tenant:host:`).
`KEYS` returns those physical keys, `del` prefixes them again, so the
server is asked to delete `keyPrefix ++ keyPrefix ++ …` — keys that do not
exist — and `invalidateProductCache` deletes nothing at all: the cache is
returned unchanged, every `products:{tenantId}:` and
`collections:{tenantId}:` entry included. -/
theorem invalidateProductCache_deletes_nothing (pre tenantId : String)
    (store : List (String × String))
    (hstore : ∀ kv ∈ store, ∃ logicalKey,
      kv.1 = pre ++ logicalKey ∧ strIsPre pre logicalKey = false) :
    invalidateProductCache pre tenantId store = store := by
  have hk1 : ∀ k ∈ redisKeys store (pre ++ "products:" ++ tenantId ++ ":"),
      strIsPre pre k = true := by
    intro k hk
    have := redisKeys_forall store (pre ++ "products:" ++ tenantId ++ ":") k hk
    exact strIsPre_of_append pre "products:"
      k (strIsPre_of_append (pre ++ "products:") tenantId k
        (strIsPre_of_append (pre ++ "products:" ++ tenantId) ":" k this))
  have hk2 : ∀ k ∈ redisKeys store (pre ++ "collections:" ++ tenantId ++ ":"),
      strIsPre pre k = true := by
    intro k hk
    have := redisKeys_forall store (pre ++ "collections:" ++ tenantId ++ ":") k hk
    exact strIsPre_of_append pre "collections:"
      k (strIsPre_of_append (pre ++ "collections:") tenantId k
        (strIsPre_of_append (pre ++ "collections:" ++ tenantId) ":" k this))
  simp only [invalidateProductCache]
  have h1 : (if (redisKeys store (pre ++ "products:" ++ tenantId ++ ":")).length > 0
      then redisDel pre store (redisKeys store (pre ++ "products:" ++ tenantId ++ ":"))
      else store) = store := by
    split
    · exact redisDel_no_op pre store _ hk1 hstore
    · rfl
  rw [h1]
  split
  · exact redisDel_no_op pre store _ hk2 hstore
  · rfl

/-- Closed instantiation of `invalidateProductCache_deletes_nothing` at
the failing input: under the default key prefix, a cache freshly populated
by `getProducts` for tenant `t1` is left completely unchanged by
`invalidateProductCache`, its `products:t1:` entry included. -/
theorem invalidateProductCache_deletes_nothing_witness :
    (getProductsCached (redisKeyPrefix none) [] "t1" "\x7b\x7d" "[]").2 =
      [("renderer:products:t1:\x7b\x7d", "[]")] ∧
    invalidateProductCache (redisKeyPrefix none) "t1"
        (getProductsCached (redisKeyPrefix none) [] "t1" "\x7b\x7d" "[]").2 =
      (getProductsCached (redisKeyPrefix none) [] "t1" "\x7b\x7d" "[]").2 := by
  refine ⟨rfl, ?_⟩
  apply invalidateProductCache_deletes_nothing
  intro kv hkv
  rw [show (getProductsCached (redisKeyPrefix none) [] "t1" "\x7b\x7d" "[]").2 =
      [("renderer:products:t1:\x7b\x7d", "[]")] from rfl,
    List.mem_singleton] at hkv
  rw [hkv]
  exact ⟨"products:t1:\x7b\x7d", rfl, by decide⟩

/-! ## Block renderer (`renderBlock` in src/unnamed/part_007 lines 349-429
and src/unnamed/part_008 lines 418-721)

Both versions switch on `block.type` and concatenate HTML strings.  The
part_008 version additionally takes the page-builder `editable` flag, and
its `products` case reads the tenant's product rows from the database
(`pool.query` over the `products` table); those rows are passed in as the
`db` parameter (a failed query yields the empty row list). -/

/-- JavaScript `cond ? f(cond) : d` on an optional string operand. -/
def jsTernaryStr (o : Option String) (f : String → String) (d : String) : String :=
  match o with
  | some s => if s ≠ "" then f s else d
  | none => d

/-- JavaScript `a || b` on an optional number: `undefined` and `0` are
falsy. -/
def jsOrNat (o : Option Nat) (d : Nat) : Nat :=
  match o with
  | some n => if n = 0 then d else n
  | none => d

/-- Boolean form of `String.prototype.includes`. -/
def containsStr (s t : String) : Bool := decide (strContains s t)

/-- The configuration map of a content block (`block.config`); every key
used by either renderer, all optional. -/
structure BlockConfig where
  height : Option String := none
  backgroundImage : Option String := none
  backgroundColor : Option String := none
  textColor : Option String := none
  titleColor : Option String := none
  title : Option String := none
  subtitle : Option String := none
  description : Option String := none
  buttonText : Option String := none
  buttonLink : Option String := none
  buttonColor : Option String := none
  maxWidth : Option String := none
  heading : Option String := none
  headingSize : Option String := none
  headingColor : Option String := none
  textSize : Option String := none
  textAlign : Option String := none
  content : Option String := none
  src : Option String := none
  imageUrl : Option String := none
  alt : Option String := none
  caption : Option String := none
  borderRadius : Option String := none
  link : Option String := none
  videoUrl : Option String := none
  limit : Option Nat := none
  images : Option (List String) := none
deriving DecidableEq

/-- One page-builder content block: `{ type, id, config }`. -/
structure ContentBlock where
  type : String
  id : Option String := none
  config : Option BlockConfig := none
deriving DecidableEq

/-- A row of the part_008 `products` table as selected by its query
(`SELECT id, name, description, price, image_url ...`). -/
structure DbProduct where
  id : String
  name : String
  description : Option String
  price : String
  image_url : Option String
deriving DecidableEq

/-- Digits-to-number helper for the price formatter. -/
def natOfDigits (l : List Char) : Nat :=
  l.foldl (fun acc c => acc * 10 + (c.toNat - 48)) 0

/-- Two-digit zero padding. -/
def pad2 (n : Nat) : String :=
  if n < 10 then "0" ++ toString n else toString n

/-- `parseFloat(p).toFixed(2)` on the plain non-negative decimal numerals
produced by the `numeric` price column: round the value half-up to two
fractional digits. -/
def toFixed2 (s : String) : String :=
  let parts := s.splitOn "."
  let intDigits := (parts.headD "").data.filter Char.isDigit
  let fracDigits := ((parts.getD 1 "").data.filter Char.isDigit ++ ['0', '0', '0']).take 3
  let total := natOfDigits intDigits * 1000 + natOfDigits fracDigits
  let cents := (total + 5) / 10
  toString (cents / 100) ++ "." ++ pad2 (cents % 100)

/-- JS `.join('')` over a list of fragments. -/
def joinStrings : List String → String
  | [] => ""
  | s :: rest => s ++ joinStrings rest

/-- The part_007 `renderBlock` placeholder for an unrecognized type. -/
def unknownBlockHtmlV1 (ty : String) : String :=
  "<div style=\"padding: 40px; text-align: center; background: #f5f5f5;\">Block: "
    ++ ty ++ "</div>"

/-- The part_007 `renderBlock`: switch over hero, text, image,
call-to-action, with a generic placeholder default. -/
def renderBlockV1 (block : ContentBlock) : String :=
  let c := block.config.getD {}
  if block.type = "hero" then
    "\n        <div style=\"\n          height: " ++ jsOrStr c.height "600px"
    ++ ";\n          background-image: "
    ++ jsTernaryStr c.backgroundImage (fun img => "url(\x27" ++ img ++ "\x27)")
        "linear-gradient(135deg, #667eea 0%, #764ba2 100%)"
    ++ ";\n          background-size: cover;\n          background-position: center;\n          display: flex;\n          align-items: center;\n          justify-content: center;\n          color: "
    ++ jsOrStr c.textColor "#fff"
    ++ ";\n          text-align: center;\n          padding: 40px;\n        \">\n          <div>\n            <h1 style=\"font-size: 3rem; margin-bottom: 1rem;\">"
    ++ jsOrStr c.title "Hero Title"
    ++ "</h1>\n            <p style=\"font-size: 1.5rem; margin-bottom: 2rem;\">"
    ++ jsOrStr c.subtitle "Subtitle"
    ++ "</p>\n            <a href=\"" ++ jsOrStr c.buttonLink "#"
    ++ "\" style=\"\n              background: " ++ jsOrStr c.buttonColor "#667eea"
    ++ ";\n              color: white;\n              padding: 15px 40px;\n              text-decoration: none;\n              border-radius: 5px;\n              font-weight: bold;\n              display: inline-block;\n            \">"
    ++ jsOrStr c.buttonText "Click Here"
    ++ "</a>\n          </div>\n        </div>\n      "
  else if block.type = "text" then
    "\n        <div style=\"max-width: " ++ jsOrStr c.maxWidth "800px"
    ++ "; margin: 40px auto; padding: 0 20px;\">\n          <h2 style=\"font-size: "
    ++ jsOrStr c.headingSize "2rem" ++ "; color: " ++ jsOrStr c.headingColor "#333"
    ++ "; margin-bottom: 1rem;\">\n            " ++ jsOrStr c.heading "Heading"
    ++ "\n          </h2>\n          <div style=\"font-size: " ++ jsOrStr c.textSize "1rem"
    ++ "; color: " ++ jsOrStr c.textColor "#666"
    ++ "; line-height: 1.6;\">\n            "
    ++ jsOrStr c.content "<p>Your content here...</p>"
    ++ "\n          </div>\n        </div>\n      "
  else if block.type = "image" then
    "\n        <div style=\"text-align: center; margin: 40px auto; max-width: "
    ++ jsOrStr c.maxWidth "100%" ++ ";\">\n          <img src=\""
    ++ jsOrStr c.src "https://via.placeholder.com/800x600"
    ++ "\" alt=\"" ++ jsOrStr c.alt "Image"
    ++ "\" style=\"border-radius: " ++ jsOrStr c.borderRadius "0px"
    ++ ";\" />\n          "
    ++ jsTernaryStr c.caption
        (fun cap =>
          "<p style=\"margin-top: 10px; color: #666; font-size: 0.9rem;\">"
          ++ cap ++ "</p>") ""
    ++ "\n        </div>\n      "
  else if block.type = "call-to-action" then
    "\n        <div style=\"\n          background: " ++ jsOrStr c.backgroundColor "#667eea"
    ++ ";\n          color: " ++ jsOrStr c.textColor "#fff"
    ++ ";\n          padding: 60px 40px;\n          text-align: center;\n          margin: 40px 0;\n        \">\n          <h2 style=\"font-size: 2.5rem; margin-bottom: 1rem;\">"
    ++ jsOrStr c.title "Ready to get started?"
    ++ "</h2>\n          <p style=\"font-size: 1.2rem; margin-bottom: 2rem;\">"
    ++ jsOrStr c.description "Description"
    ++ "</p>\n          <a href=\"" ++ jsOrStr c.buttonLink "#"
    ++ "\" style=\"\n            background: " ++ jsOrStr c.buttonColor "#fff"
    ++ ";\n            color: "
    ++ (if c.textColor = some "#fff" then "#667eea" else "#fff")
    ++ ";\n            padding: 15px 40px;\n            text-decoration: none;\n            border-radius: 5px;\n            font-weight: bold;\n            display: inline-block;\n          \">"
    ++ jsOrStr c.buttonText "Get Started"
    ++ "</a>\n        </div>\n      "
  else
    unknownBlockHtmlV1 block.type

/-- Rendering a list of blocks via part_007: `blocks.map(renderBlock).join('')`. -/
def renderBlocksV1 (blocks : List ContentBlock) : String :=
  joinStrings (blocks.map renderBlockV1)

/-- YouTube id extraction of the part_008 video case: transcription of the
regex `(?:youtube\.com\/(?:[^\/]+\/.+\/|(?:v|e(?:mbed)?)\/|.*[?&]v=)|youtu\.be\/)([^"&?\/\s]{11})`
for the common URL forms — an 11-character id (no quote, ampersand,
question mark, slash or whitespace) after `youtu.be/`, after a `?v=`/`&v=`
query parameter, or after an `embed/`, `/v/` or `/e/` path segment. -/
def afterFirst (s marker : String) : Option String :=
  match s.splitOn marker with
  | [] => none
  | [_] => none
  | _ :: rest => some (String.intercalate marker rest)

def validYtChar (c : Char) : Bool :=
  !(c = '"' || c = '&' || c = '?' || c = '/' || c = ' ' || c = '\t' || c = '\n')

def take11Valid (s : String) : Option String :=
  let cand := s.data.take 11
  if cand.length = 11 ∧ cand.all validYtChar then some ⟨cand⟩ else none

def youtubeVideoId (url : String) : Option String :=
  match afterFirst url "youtu.be/" with
  | some rest => take11Valid rest
  | none =>
  match afterFirst url "?v=" with
  | some rest => take11Valid rest
  | none =>
  match afterFirst url "&v=" with
  | some rest => take11Valid rest
  | none =>
  match afterFirst url "embed/" with
  | some rest => take11Valid rest
  | none =>
  match afterFirst url "/v/" with
  | some rest => take11Valid rest
  | none =>
  match afterFirst url "/e/" with
  | some rest => take11Valid rest
  | none => none

/-- Vimeo id extraction: the digits after `vimeo.com/`
(regex `vimeo\.com\/(\d+)`). -/
def vimeoVideoId (url : String) : Option String :=
  match afterFirst url "vimeo.com/" with
  | some rest =>
    let ds := rest.data.takeWhile Char.isDigit
    if ds ≠ [] then some ⟨ds⟩ else none
  | none => none

/-- The part_008 `renderBlock` placeholder for an unrecognized type. -/
def unknownBlockHtmlV2 (ty : String) : String :=
  "\n        <div style=\"\n          padding: 60px 20px;\n          text-align: center;\n          background: #f5f5f5;\n          border: 2px dashed #ccc;\n          border-radius: 8px;\n          margin: 20px;\n        \">\n          <p style=\"font-size: 1.25rem; color: #666;\">📦 Block: "
    ++ ty ++ "</p>\n        </div>\n      "

/-- The part_008 `renderBlock(block, editable)`: switch over hero, text,
image, products, video, gallery, with a generic placeholder default.  The
`products` case reads the tenant's active product rows (`db`); the source
references `pool` and `tenantId` that are not in scope there (and uses
`await` inside a non-async function), so this embeds the evident intent of
querying the products table, with a failed query giving `db = []`. -/
def renderBlockV2 (block : ContentBlock) (editable : Bool)
    (db : List DbProduct) : String :=
  let c := block.config.getD {}
  let blockId := if editable
    then "data-block-id=\"" ++ block.id.getD "undefined" ++ "\"" else ""
  let editableStyle := if editable
    then "cursor: pointer; transition: opacity 0.2s;" else ""
  let editableHover := if editable
    then "onmouseover=\"this.style.opacity=0.9\" onmouseout=\"this.style.opacity=1\""
    else ""
  if block.type = "hero" then
    let heroBackground := jsTernaryStr c.backgroundImage
      (fun img =>
        "linear-gradient(rgba(0,0,0,0.3), rgba(0,0,0,0.3)), url(\x27" ++ img ++ "\x27)")
      (jsOrStr c.backgroundColor "#4f46e5")
    "\n        <div " ++ blockId ++ " " ++ editableHover
    ++ " style=\"\n          min-height: " ++ jsOrStr c.height "500px"
    ++ ";\n          background: " ++ heroBackground
    ++ ";\n          background-size: cover;\n          background-position: center;\n          display: flex;\n          align-items: center;\n          justify-content: center;\n          text-align: center;\n          padding: 60px 20px;\n          "
    ++ editableStyle
    ++ "\n        \">\n          <div style=\"max-width: 800px;\">\n            <h1 style=\"\n              font-size: clamp(2rem, 5vw, 3.5rem);\n              margin-bottom: 1rem;\n              color: "
    ++ jsOrStr c.titleColor "#ffffff"
    ++ ";\n              font-weight: 700;\n              line-height: 1.2;\n            \">"
    ++ jsOrStr c.title "Welcome to our store" ++ "</h1>\n            "
    ++ jsTernaryStr c.subtitle
        (fun st =>
          "\n              <p style=\"\n                font-size: clamp(1rem, 3vw, 1.5rem);\n                margin-bottom: 2rem;\n                color: "
          ++ jsOrStr c.titleColor "#ffffff"
          ++ ";\n                opacity: 0.9;\n              \">" ++ st
          ++ "</p>\n            ") ""
    ++ "\n            "
    ++ jsTernaryStr c.buttonText
        (fun bt =>
          "\n              <a href=\"" ++ jsOrStr c.buttonLink "#"
          ++ "\" style=\"\n                background: " ++ jsOrStr c.buttonColor "#ffffff"
          ++ ";\n                color: " ++ jsOrStr c.backgroundColor "#4f46e5"
          ++ ";\n                padding: 16px 40px;\n                text-decoration: none;\n                border-radius: 8px;\n                font-weight: 600;\n                font-size: 1.125rem;\n                display: inline-block;\n                transition: transform 0.2s;\n              \">"
          ++ bt ++ "</a>\n            ") ""
    ++ "\n          </div>\n        </div>\n      "
  else if block.type = "text" then
    "\n        <div " ++ blockId ++ " " ++ editableHover
    ++ " style=\"\n          max-width: 800px;\n          margin: 60px auto;\n          padding: 0 20px;\n          background: "
    ++ jsOrStr c.backgroundColor "#ffffff"
    ++ ";\n          text-align: " ++ jsOrStr c.textAlign "left"
    ++ ";\n          " ++ editableStyle ++ "\n        \">\n          "
    ++ jsTernaryStr c.heading
        (fun hd =>
          "\n            <h2 style=\"\n              font-size: 2.5rem;\n              color: "
          ++ jsOrStr c.textColor "#333333"
          ++ ";\n              margin-bottom: 1.5rem;\n              font-weight: 700;\n            \">"
          ++ hd ++ "</h2>\n          ") ""
    ++ "\n          <div style=\"\n            font-size: 1.125rem;\n            color: "
    ++ jsOrStr c.textColor "#333333"
    ++ ";\n            line-height: 1.8;\n            opacity: 0.9;\n          \">\n            "
    ++ jsOrStr c.content "<p>Add your text here...</p>"
    ++ "\n          </div>\n        </div>\n      "
  else if block.type = "image" then
    let imageContent := jsTernaryStr c.link
      (fun lk =>
        "<a href=\"" ++ lk ++ "\" style=\"display: block;\">\n             <img src=\""
        ++ jsOrStr c.imageUrl
            "https://images.unsplash.com/photo-1505740420928-5e560c06d30e?w=800&h=400&fit=crop"
        ++ "\" \n                  alt=\"" ++ jsOrStr c.alt "Image"
        ++ "\" \n                  style=\"width: 100%; height: auto; border-radius: 8px; display: block;\" />\n           </a>")
      ("<img src=\""
        ++ jsOrStr c.imageUrl
            "https://images.unsplash.com/photo-1505740420928-5e560c06d30e?w=800&h=400&fit=crop"
        ++ "\" \n                alt=\"" ++ jsOrStr c.alt "Image"
        ++ "\" \n                style=\"width: 100%; height: auto; border-radius: 8px; display: block;\" />")
    "\n        <div " ++ blockId ++ " " ++ editableHover
    ++ " style=\"max-width: 1200px; margin: 60px auto; padding: 0 20px; "
    ++ editableStyle ++ "\">\n          " ++ imageContent ++ "\n        </div>\n      "
  else if block.type = "products" then
    let productLimit := jsOrNat c.limit 4
    let realProducts := db.take productLimit
    if realProducts.isEmpty then
      "\n          <div style=\"\n            background: " ++ jsOrStr c.backgroundColor "#f9fafb"
      ++ ";\n            padding: 80px 20px;\n          \">\n            <div style=\"max-width: 1200px; margin: 0 auto; text-align: center;\">\n              "
      ++ jsTernaryStr c.heading
          (fun hd =>
            "\n                <h2 style=\"\n                  font-size: 2.5rem;\n                  margin-bottom: 2rem;\n                  font-weight: 700;\n                \">"
            ++ hd ++ "</h2>\n              ") ""
      ++ "\n              <p style=\"color: #666; font-size: 1.125rem;\">No products available yet. Add products in your dashboard to display them here.</p>\n            </div>\n          </div>\n        "
    else
      let productsHtml := joinStrings (realProducts.mapIdx (fun i product =>
        "\n        <div " ++ (if i = 0 then blockId else "")
        ++ " style=\"\n          background: white;\n          border-radius: 12px;\n          overflow: hidden;\n          box-shadow: 0 2px 8px rgba(0,0,0,0.1);\n          transition: transform 0.2s;\n          "
        ++ (if i = 0 then editableStyle else "")
        ++ "\n        \" " ++ (if i = 0 then editableHover else "")
        ++ ">\n          <img src=\"" ++ jsOrStr product.image_url "https://picsum.photos/400/400"
        ++ "\" \n               alt=\"" ++ product.name
        ++ "\" \n               style=\"width: 100%; height: 250px; object-fit: cover;\" />\n          <div style=\"padding: 20px;\">\n            <h3 style=\"font-size: 1.25rem; margin-bottom: 0.5rem; font-weight: 600;\">"
        ++ product.name
        ++ "</h3>\n            <p style=\"color: #666; margin-bottom: 1rem;\">"
        ++ jsOrStr product.description "Quality product"
        ++ "</p>\n            <div style=\"\n              display: flex;\n              justify-content: space-between;\n              align-items: center;\n            \">\n              <span style=\"font-size: 1.5rem; font-weight: 700; color: #4f46e5;\">$"
        ++ toFixed2 product.price
        ++ "</span>\n              <button style=\"\n                background: #4f46e5;\n                color: white;\n                border: none;\n                padding: 10px 20px;\n                border-radius: 6px;\n                cursor: pointer;\n                font-weight: 600;\n              \">Add to Cart</button>\n            </div>\n          </div>\n        </div>\n      "))
      "\n        <div style=\"\n          background: " ++ jsOrStr c.backgroundColor "#f9fafb"
      ++ ";\n          padding: 80px 20px;\n        \">\n          <div style=\"max-width: 1200px; margin: 0 auto;\">\n            "
      ++ jsTernaryStr c.heading
          (fun hd =>
            "\n              <h2 style=\"\n                text-align: center;\n                font-size: 2.5rem;\n                margin-bottom: 3rem;\n                font-weight: 700;\n              \">"
            ++ hd ++ "</h2>\n            ") ""
      ++ "\n            <div style=\"\n              display: grid;\n              grid-template-columns: repeat(auto-fit, minmax(280px, 1fr));\n              gap: 24px;\n            \">\n              "
      ++ productsHtml
      ++ "\n            </div>\n          </div>\n        </div>\n      "
  else if block.type = "video" then
    let embedUrl :=
      match c.videoUrl with
      | none => ""
      | some url =>
        if url = "" then ""
        else if containsStr url "youtube.com" || containsStr url "youtu.be" then
          match youtubeVideoId url with
          | some vid => "https://www.youtube.com/embed/" ++ vid
          | none => ""
        else if containsStr url "vimeo.com" then
          match vimeoVideoId url with
          | some vid => "https://player.vimeo.com/video/" ++ vid
          | none => ""
        else ""
    "\n        <div style=\"max-width: 1000px; margin: 60px auto; padding: 0 20px;\">\n          "
    ++ jsTernaryStr c.heading
        (fun hd =>
          "\n            <h2 style=\"\n              text-align: center;\n              font-size: 2.5rem;\n              margin-bottom: 2rem;\n              font-weight: 700;\n            \">"
          ++ hd ++ "</h2>\n          ") ""
    ++ "\n          "
    ++ (if embedUrl ≠ "" then
          "\n            <div style=\"\n              position: relative;\n              padding-bottom: 56.25%;\n              height: 0;\n              overflow: hidden;\n              border-radius: 12px;\n              box-shadow: 0 4px 12px rgba(0,0,0,0.15);\n            \">\n              <iframe \n                src=\""
          ++ embedUrl
          ++ "\"\n                style=\"\n                  position: absolute;\n                  top: 0;\n                  left: 0;\n                  width: 100%;\n                  height: 100%;\n                \"\n                frameborder=\"0\"\n                allow=\"accelerometer; autoplay; clipboard-write; encrypted-media; gyroscope; picture-in-picture\"\n                allowfullscreen\n              ></iframe>\n            </div>\n          "
        else
          "\n            <div style=\"\n              background: #f0f0f0;\n              padding: 80px 20px;\n              text-align: center;\n              border-radius: 12px;\n              border: 2px dashed #ccc;\n            \">\n              <p style=\"font-size: 1.25rem; color: #666;\">🎥 Add a YouTube or Vimeo URL</p>\n            </div>\n          ")
    ++ "\n        </div>\n      "
  else if block.type = "gallery" then
    let galleryImages :=
      match c.images with
      | some imgs =>
        if imgs.length > 0 then imgs
        else ["https://via.placeholder.com/400x400", "https://via.placeholder.com/400x400",
              "https://via.placeholder.com/400x400"]
      | none =>
        ["https://via.placeholder.com/400x400", "https://via.placeholder.com/400x400",
         "https://via.placeholder.com/400x400"]
    "\n        <div style=\"max-width: 1200px; margin: 60px auto; padding: 0 20px;\">\n          <div style=\"\n            display: grid;\n            grid-template-columns: repeat(auto-fit, minmax(250px, 1fr));\n            gap: 16px;\n          \">\n            "
    ++ joinStrings (galleryImages.map (fun img =>
          "\n              <div style=\"\n                aspect-ratio: 1;\n                overflow: hidden;\n                border-radius: 8px;\n              \">\n                <img src=\""
          ++ img
          ++ "\" alt=\"Gallery image\" style=\"\n                  width: 100%;\n                  height: 100%;\n                  object-fit: cover;\n                  transition: transform 0.3s;\n                \" />\n              </div>\n            "))
    ++ "\n          </div>\n        </div>\n      "
  else
    unknownBlockHtmlV2 block.type

/-- Rendering a list of blocks via part_008:
`blocks.map(block => renderBlock(block, editable)).join('')`. -/
def renderBlocksV2 (blocks : List ContentBlock) (editable : Bool)
    (db : List DbProduct) : String :=
  joinStrings (blocks.map (fun b => renderBlockV2 b editable db))

/-- The recognized type tags of the part_007 switch. -/
def recognizedBlockTypesV1 : List String :=
  ["hero", "text", "image", "call-to-action"]

/-- The recognized type tags of the part_008 switch. -/
def recognizedBlockTypesV2 : List String :=
  ["hero", "text", "image", "products", "video", "gallery"]

theorem append3_ne_nil (a b c : String) (ha : a ≠ "") : (a ++ b) ++ c ≠ "" := by
  intro h
  apply ha
  have hd := congrArg String.data h
  rw [String.data_append, String.data_append] at hd
  have h2 : (a.data ++ b.data) ++ c.data = [] := hd
  have h3 := List.append_eq_nil.mp h2
  have h4 := List.append_eq_nil.mp h3.1
  exact String.ext (by rw [h4.1])

theorem strContains_append3 (a b c : String) : strContains ((a ++ b) ++ c) b := by
  refine ⟨a.data, c.data, ?_⟩
  rw [String.data_append, String.data_append]

/-- C4: for every content block whose type tag is recognized by neither
renderer, `renderBlock` (both versions, all flags and database states)
returns the generic placeholder — a non-empty fragment containing the type
tag — and rendering a block list prepends that placeholder rather than
failing. -/
theorem renderBlock_unknown_type (block : ContentBlock) (editable : Bool)
    (db : List DbProduct)
    (h1 : block.type ∉ recognizedBlockTypesV1)
    (h2 : block.type ∉ recognizedBlockTypesV2) :
    renderBlockV1 block = unknownBlockHtmlV1 block.type ∧
    renderBlockV2 block editable db = unknownBlockHtmlV2 block.type ∧
    unknownBlockHtmlV1 block.type ≠ "" ∧
    unknownBlockHtmlV2 block.type ≠ "" ∧
    strContains (unknownBlockHtmlV1 block.type) block.type ∧
    strContains (unknownBlockHtmlV2 block.type) block.type ∧
    (∀ blocks : List ContentBlock,
      renderBlocksV1 (block :: blocks) =
        unknownBlockHtmlV1 block.type ++ renderBlocksV1 blocks ∧
      renderBlocksV2 (block :: blocks) editable db =
        unknownBlockHtmlV2 block.type ++ renderBlocksV2 blocks editable db) := by
  have hh1 : block.type ≠ "hero" ∧ block.type ≠ "text" ∧ block.type ≠ "image" ∧
      block.type ≠ "call-to-action" := by
    simpa [recognizedBlockTypesV1] using h1
  have hh2 : block.type ≠ "hero" ∧ block.type ≠ "text" ∧ block.type ≠ "image" ∧
      block.type ≠ "products" ∧ block.type ≠ "video" ∧ block.type ≠ "gallery" := by
    simpa [recognizedBlockTypesV2] using h2
  have heq1 : renderBlockV1 block = unknownBlockHtmlV1 block.type := by
    simp [renderBlockV1, hh1.1, hh1.2.1, hh1.2.2.1, hh1.2.2.2]
  have heq2 : renderBlockV2 block editable db = unknownBlockHtmlV2 block.type := by
    simp [renderBlockV2, hh2.1, hh2.2.1, hh2.2.2.1, hh2.2.2.2.1, hh2.2.2.2.2.1,
      hh2.2.2.2.2.2]
  refine ⟨heq1, heq2, ?_, ?_, ?_, ?_, ?_⟩
  · unfold unknownBlockHtmlV1
    exact append3_ne_nil _ _ _ (by decide)
  · unfold unknownBlockHtmlV2
    exact append3_ne_nil _ _ _ (by decide)
  · unfold unknownBlockHtmlV1
    exact strContains_append3 _ _ _
  · unfold unknownBlockHtmlV2
    exact strContains_append3 _ _ _
  · intro blocks
    constructor
    · show renderBlockV1 block ++ renderBlocksV1 blocks = _
      rw [heq1]
    · show renderBlockV2 block editable db ++ renderBlocksV2 blocks editable db = _
      rw [heq2]

/-- Closed instantiation of `renderBlock_unknown_type` at the type tag
`mystery`. -/
theorem renderBlock_unknown_type_witness :
    renderBlockV1 { type := "mystery" } = unknownBlockHtmlV1 "mystery" ∧
    renderBlockV2 { type := "mystery" } false [] = unknownBlockHtmlV2 "mystery" ∧
    strContains (unknownBlockHtmlV1 "mystery") "mystery" := by
  have h := renderBlock_unknown_type { type := "mystery" } false []
    (by decide) (by decide)
  exact ⟨h.1, h.2.1, h.2.2.2.2.1⟩

/-- A bare products block. -/
def productsBlock : ContentBlock := { type := "products" }

/-- A product row used in concrete evaluations. -/
def sampleDbProduct : DbProduct :=
  { id := "p1", name := "Widget", description := some "Solid widget",
    price := "19.99", image_url := none }

set_option maxRecDepth 4096 in
/-- C5 counterexample: the part_008 `products` case reads the product
table, so the same block list rendered under two database states yields
different HTML — block rendering is not a function of the block list
alone. -/
theorem renderBlocks_state_counterexample :
    renderBlocksV2 [productsBlock] false [] ≠
      renderBlocksV2 [productsBlock] false [sampleDbProduct] := by
  decide

theorem renderBlockV2_db_independent (block : ContentBlock) (editable : Bool)
    (hb : block.type ≠ "products") (db1 db2 : List DbProduct) :
    renderBlockV2 block editable db1 = renderBlockV2 block editable db2 := by
  by_cases e1 : block.type = "hero"
  · simp [renderBlockV2, e1]
  by_cases e2 : block.type = "text"
  · simp [renderBlockV2, e1, e2]
  by_cases e3 : block.type = "image"
  · simp [renderBlockV2, e1, e2, e3]
  by_cases e5 : block.type = "video"
  · simp [renderBlockV2, e1, e2, e3, hb, e5]
  by_cases e6 : block.type = "gallery"
  · simp [renderBlockV2, e1, e2, e3, hb, e5, e6]
  · simp [renderBlockV2, e1, e2, e3, hb, e5, e6]

/-- C5 amended: block rendering is a pure function of the block list for
the part_007 renderer (it takes no external state at all) and for every
part_008 block list containing no `products` block; the part_008 `products`
case reads the product table, so its output varies with database state. -/
theorem renderBlocks_stateless (blocks : List ContentBlock) (editable : Bool)
    (db1 db2 : List DbProduct)
    (h : ∀ b ∈ blocks, b.type ≠ "products") :
    renderBlocksV2 blocks editable db1 = renderBlocksV2 blocks editable db2 := by
  unfold renderBlocksV2
  induction blocks with
  | nil => rfl
  | cons b bs ih =>
    simp only [List.map_cons, joinStrings]
    rw [renderBlockV2_db_independent b editable (h b (List.mem_cons_self b bs)) db1 db2,
      ih (fun x hx => h x (List.mem_cons_of_mem b hx))]

/-- Closed instantiation of `renderBlocks_stateless`: a hero-plus-gallery
page renders identically under an empty and a non-empty product table. -/
theorem renderBlocks_stateless_witness :
    renderBlocksV2 [{ type := "hero" }, { type := "gallery" }] false [] =
      renderBlocksV2 [{ type := "hero" }, { type := "gallery" }] false
        [sampleDbProduct] :=
  renderBlocks_stateless [{ type := "hero" }, { type := "gallery" }] false
    [] [sampleDbProduct] (by decide)

end Storefront
